import Mathlib

/-
Shallow embedding of the `TigerPackageIo` streaming I/O hook
(src/crates/rrise/c/utilities/tiger_io_hook.cpp, tiger_io_hook.h).

Modelling notes, all tied to the concrete C++:

* `AKRESULT` keeps only the constructors the translated code produces
  (`AK_Success`, `AK_Fail`, `AK_FileNotFound`).
* Machine integers are `Nat` with explicit `% 2^w` where overflow matters.
  In particular `m_nextPackageFileID` is a `uint64_t` whose post-increment
  wraps modulo `2^64`, and the bounds check in `Read` adds a `uint64_t`
  file position to a `uint32_t` request size in 64-bit arithmetic.
* `FILE_HANDLE_PACKAGE_BIT` is the C macro `(1 << 31)`, an `int` whose value
  is `INT_MIN`.  Every use site combines it with a `uint64_t`, so the usual
  arithmetic conversions sign-extend it to `0xFFFFFFFF80000000`; likewise
  `~FILE_HANDLE_PACKAGE_BIT` converts to `0x000000007FFFFFFF`.  The constants
  below are those converted 64-bit values.
* `std::unordered_map<uint64_t, std::vector<uint8_t>>` is an association
  list with overwrite-on-insert, erase and lookup helpers.
* The external collaborators (`ddumbe_*` delivery source, the OS file
  primitives behind `::ReadFile`/`::WriteFile`/`CAkFileHelpers`, and the
  `AK::StreamMgr` registration API) are oracle fields of an `IoEnv`
  environment record; the streaming manager's resolver slot is an `SmState`.
* `AKASSERT` compiles to nothing in release builds and has no effect on the
  value a function returns, so it is translated as a no-op.
* `memcpy(out, buffer.data() + pos, size)` is rendered as the copied byte
  list `(buffer.drop pos).take size` wrapped in `some`; `none` means the
  copy was never executed.  (When the C++ source range is out of bounds the
  C++ behaviour is undefined; the embedding still records that the copy
  statement was reached.)
-/

namespace TigerIo

/-- The subset of Wwise `AKRESULT` values produced by the translated code. -/
inductive AKRESULT where
  | AK_Success
  | AK_Fail
  | AK_FileNotFound
deriving DecidableEq, Repr

/-- `AK_SCHEDULER_BLOCKING` from the Wwise SDK (`AkStreamMgrModule.h`). -/
def AK_SCHEDULER_BLOCKING : Nat := 1

/-- `AK_INVALID_DEVICE_ID` is `(AkDeviceID)-1` with `AkDeviceID = AkUInt32`. -/
def AK_INVALID_DEVICE_ID : Nat := 2 ^ 32 - 1

/-- `SIZE_MAX` on the 64-bit target: the delivery source's unknown-size sentinel. -/
def SIZE_MAX : Nat := 2 ^ 64 - 1

/-- `FILE_HANDLE_PACKAGE_BIT` = `(1 << 31)` as a C `int` (value `INT_MIN`),
after conversion to `uint64_t` at its use sites: `0xFFFFFFFF80000000`. -/
def FILE_HANDLE_PACKAGE_BIT : Nat := 2 ^ 64 - 2 ^ 31

/-- `~FILE_HANDLE_PACKAGE_BIT` (bitwise not of the `int`, value `INT_MAX`)
after conversion to `uint64_t`: `0x000000007FFFFFFF`. -/
def PACKAGE_KEY_MASK : Nat := 2 ^ 31 - 1

/-- `fileId | FILE_HANDLE_PACKAGE_BIT` — how `Open(AkFileID)` builds `hFile`. -/
def encodePackageHandle (k : Nat) : Nat := k ||| FILE_HANDLE_PACKAGE_BIT

/-- `uFile & FILE_HANDLE_PACKAGE_BIT` tested against zero — how `Read` and
`Close` decide whether a handle is a package handle. -/
def handleIsPackage (h : Nat) : Bool := h &&& FILE_HANDLE_PACKAGE_BIT != 0

/-- `uFile & ~FILE_HANDLE_PACKAGE_BIT` — how `Read` and `Close` recover the
package key from a handle. -/
def decodePackageKey (h : Nat) : Nat := h &&& PACKAGE_KEY_MASK

/-- `m_packageFiles.find(k)` on the association-list model of
`std::unordered_map<uint64_t, std::vector<uint8_t>>`. -/
def storeLookup (k : Nat) (m : List (Nat × List Nat)) : Option (List Nat) :=
  List.lookup k m

/-- `m_packageFiles.erase(k)`. -/
def storeErase (k : Nat) (m : List (Nat × List Nat)) : List (Nat × List Nat) :=
  m.filter (fun p => p.1 != k)

/-- `m_packageFiles[k] = v` (overwrite-on-insert map semantics). -/
def storeInsert (k : Nat) (v : List Nat) (m : List (Nat × List Nat)) :
    List (Nat × List Nat) :=
  (k, v) :: storeErase k m

/-- The mutable fields of a `TigerPackageIo` object (tiger_io_hook.h). -/
structure TigerIoState where
  m_deviceID : Nat
  m_packageFiles : List (Nat × List Nat)
  m_nextPackageFileID : Nat
deriving DecidableEq, Repr

/-- `AkDeviceSettings`, restricted to the field the code inspects. -/
structure AkDeviceSettings where
  uSchedulerTypeFlags : Nat
deriving DecidableEq, Repr

/-- `AkFileDesc`, restricted to the fields the code populates (the
`pCustomParam` pointer is always set to `NULL` and is omitted). -/
structure AkFileDesc where
  iFileSize : Nat
  uSector : Nat
  deviceID : Nat
  hFile : Nat
  uCustomParamSize : Nat
deriving DecidableEq, Repr

/-- `AkIOTransferInfo`, restricted to the fields the code inspects:
`uFilePosition : AkUInt64` and `uRequestedSize : AkUInt32`. -/
structure AkIOTransferInfo where
  uFilePosition : Nat
  uRequestedSize : Nat
deriving DecidableEq, Repr

/-- Outcome of one OS-level positioned transfer (`::ReadFile`/`::WriteFile`):
the boolean the API returns, the count stored through `&uSizeTransferred`,
and (for reads) the bytes placed in the caller's buffer. -/
structure OsTransfer where
  ok : Bool
  transferred : Nat
  data : List Nat
deriving DecidableEq, Repr

/-- The streaming manager's state visible to this hook: its file-location
resolver slot (`AK::StreamMgr::Get/SetFileLocationResolver`), holding the
identity of the registered resolver object when set. -/
structure SmState where
  resolver : Option Nat
deriving DecidableEq, Repr

/-- External collaborators as oracles: the `ddumbe` asset-delivery source,
the OS positioned read/write and close primitives, and
`AK::StreamMgr::CreateDevice`.  (`OVERLAPPED.Offset`/`OffsetHigh` recombine
the 64-bit position, so the oracles take the position directly.) -/
structure IoEnv where
  ddumbe_get_wwise_file_size_by_id : Nat → Nat
  ddumbe_read_wwise_file_by_id : Nat → Nat → Option (List Nat)
  osRead : Nat → Nat → Nat → OsTransfer
  osWrite : Nat → Nat → Nat → OsTransfer
  osClose : Nat → AKRESULT
  createDevice : AkDeviceSettings → SmState → Nat × SmState

/-- `TigerPackageIo::Init`.  `selfId` is the identity of `this` as seen by
the resolver slot.  Returns (result, object state, streaming-manager state). -/
def tigerInit (env : IoEnv) (s : TigerIoState) (sm : SmState)
    (in_deviceSettings : AkDeviceSettings) (selfId : Nat) :
    AKRESULT × TigerIoState × SmState :=
  if in_deviceSettings.uSchedulerTypeFlags ≠ AK_SCHEDULER_BLOCKING then
    (AKRESULT.AK_Fail, s, sm)
  else
    let sm1 := if (sm.resolver).isNone then { sm with resolver := some selfId } else sm
    let dev := env.createDevice in_deviceSettings sm1
    -- `if (m_deviceID != AK_INVALID_DEVICE_ID) return AK_Success; return AK_Success;`
    (AKRESULT.AK_Success, { s with m_deviceID := dev.1 }, dev.2)

/-- `TigerPackageIo::Open(AkFileID, ...)` — the numeric-ID open.
Returns (result, object state, populated descriptor when successful). -/
def tigerOpenById (env : IoEnv) (s : TigerIoState) (in_fileID : Nat) :
    AKRESULT × TigerIoState × Option AkFileDesc :=
  let size := env.ddumbe_get_wwise_file_size_by_id in_fileID
  if size = SIZE_MAX then (AKRESULT.AK_FileNotFound, s, none)
  else
    match env.ddumbe_read_wwise_file_by_id in_fileID size with
    | none => (AKRESULT.AK_Fail, s, none)
    | some buffer =>
      let fileId := s.m_nextPackageFileID
      let s' : TigerIoState :=
        { s with
          m_nextPackageFileID := (s.m_nextPackageFileID + 1) % 2 ^ 64
          m_packageFiles := storeInsert fileId buffer s.m_packageFiles }
      let desc : AkFileDesc :=
        { iFileSize := size
          uSector := 0
          deviceID := s.m_deviceID
          hFile := encodePackageHandle fileId
          uCustomParamSize := 0 }
      (AKRESULT.AK_Success, s', some desc)

/-- `TigerPackageIo::Read`.  The second component is `some bytes` when the
`memcpy` (package path) or a successful OS read (native path) placed
`bytes` in the output buffer, `none` when nothing was copied. -/
def tigerRead (env : IoEnv) (s : TigerIoState) (in_fileDesc : AkFileDesc)
    (io_transferInfo : AkIOTransferInfo) : AKRESULT × Option (List Nat) :=
  let uFile := in_fileDesc.hFile
  if handleIsPackage uFile then
    let fileId := decodePackageKey uFile
    match storeLookup fileId s.m_packageFiles with
    | none => (AKRESULT.AK_Fail, none)
    | some buffer =>
      -- `io_transferInfo.uFilePosition + io_transferInfo.uRequestedSize`
      -- is computed in wrapping 64-bit arithmetic.
      if (io_transferInfo.uFilePosition + io_transferInfo.uRequestedSize) % 2 ^ 64
          > buffer.length then
        (AKRESULT.AK_Fail, none)
      else
        (AKRESULT.AK_Success,
          some ((buffer.drop io_transferInfo.uFilePosition).take
            io_transferInfo.uRequestedSize))
  else
    let r := env.osRead uFile io_transferInfo.uFilePosition io_transferInfo.uRequestedSize
    -- `AKASSERT(uSizeTransferred == uRequestedSize)` is a release no-op.
    if r.ok then (AKRESULT.AK_Success, some r.data) else (AKRESULT.AK_Fail, none)

/-- `TigerPackageIo::Write`.  The C++ method inspects no package state at
all: it issues the OS positioned write against the raw handle value and
returns the OS outcome; the object state is returned unchanged. -/
def tigerWrite (env : IoEnv) (s : TigerIoState) (in_fileDesc : AkFileDesc)
    (io_transferInfo : AkIOTransferInfo) : AKRESULT × TigerIoState :=
  let r := env.osWrite in_fileDesc.hFile io_transferInfo.uFilePosition
      io_transferInfo.uRequestedSize
  (if r.ok then AKRESULT.AK_Success else AKRESULT.AK_Fail, s)

/-- `TigerPackageIo::Close`. -/
def tigerClose (env : IoEnv) (s : TigerIoState) (in_fileDesc : AkFileDesc) :
    AKRESULT × TigerIoState :=
  let uFile := in_fileDesc.hFile
  if handleIsPackage uFile then
    let fileId := decodePackageKey uFile
    (AKRESULT.AK_Success, { s with m_packageFiles := storeErase fileId s.m_packageFiles })
  else
    (env.osClose uFile, s)

/-- `TigerPackageIo::GetBlockSize` — constant 1 for every descriptor. -/
def tigerGetBlockSize (_ : AkFileDesc) : Nat := 1

/-! ### Helper lemmas about the handle encoding and the store -/

theorem testBit_FILE_HANDLE_PACKAGE_BIT (i : Nat) :
    FILE_HANDLE_PACKAGE_BIT.testBit i = (decide (31 ≤ i) && decide (i < 64)) := by
  rcases Nat.lt_or_ge i 64 with h | h
  · revert h
    revert i
    decide
  · have h1 : FILE_HANDLE_PACKAGE_BIT < 2 ^ i :=
      lt_of_lt_of_le (by norm_num [FILE_HANDLE_PACKAGE_BIT])
        (Nat.pow_le_pow_right (by norm_num) h)
    simp [Nat.testBit_lt_two_pow h1, Nat.not_lt.mpr h]

theorem handleIsPackage_encode (k : Nat) :
    handleIsPackage (encodePackageHandle k) = true := by
  have h31 : ((k ||| FILE_HANDLE_PACKAGE_BIT) &&& FILE_HANDLE_PACKAGE_BIT).testBit 31 = true := by
    simp [Nat.testBit_and, Nat.testBit_or, testBit_FILE_HANDLE_PACKAGE_BIT]
  simp only [handleIsPackage, encodePackageHandle, bne_iff_ne, ne_eq]
  intro h0
  rw [h0] at h31
  simp [Nat.zero_testBit] at h31

theorem decodePackageKey_encode (k : Nat) (hk : k < 2 ^ 31) :
    decodePackageKey (encodePackageHandle k) = k := by
  apply Nat.eq_of_testBit_eq
  intro i
  simp only [decodePackageKey, encodePackageHandle, PACKAGE_KEY_MASK,
    Nat.testBit_and, Nat.testBit_or, testBit_FILE_HANDLE_PACKAGE_BIT,
    Nat.testBit_two_pow_sub_one]
  rcases Nat.lt_or_ge i 31 with h | h
  · simp [h, Nat.not_le.mpr h]
  · have hb : k.testBit i = false :=
      Nat.testBit_lt_two_pow (lt_of_lt_of_le hk (Nat.pow_le_pow_right (by norm_num) h))
    simp [hb, Nat.not_lt.mpr h]

theorem storeLookup_storeInsert_self (k : Nat) (v : List Nat)
    (m : List (Nat × List Nat)) : storeLookup k (storeInsert k v m) = some v := by
  simp [storeLookup, storeInsert, List.lookup]

theorem storeLookup_storeErase_self (k : Nat) (m : List (Nat × List Nat)) :
    storeLookup k (storeErase k m) = none := by
  induction m with
  | nil => rfl
  | cons p t ih =>
    by_cases h : p.1 = k
    · simpa [storeErase, List.filter_cons, h] using ih
    · have h1 : (p.1 != k) = true := bne_iff_ne.mpr h
      have h2 : (k == p.1) = false := beq_eq_false_iff_ne.mpr (Ne.symm h)
      simp only [storeErase, List.filter_cons, h1, if_true, storeLookup,
        List.lookup, h2] at ih ⊢
      exact ih

/-! ### Concrete environments and states used by witnesses and counterexamples -/

/-- A concrete delivery/OS environment: every asset has size 4 with bytes
`[1, 2, 3, 4]`, OS transfers report success, device creation yields id 7. -/
def env0 : IoEnv :=
  { ddumbe_get_wwise_file_size_by_id := fun _ => 4
    ddumbe_read_wwise_file_by_id := fun _ _ => some [1, 2, 3, 4]
    osRead := fun _ _ _ => ⟨true, 0, []⟩
    osWrite := fun _ _ _ => ⟨true, 0, []⟩
    osClose := fun _ => AKRESULT.AK_Success
    createDevice := fun _ sm => (7, sm) }

/-- Environment whose device creation fails with `AK_INVALID_DEVICE_ID`. -/
def envBadDevice : IoEnv :=
  { env0 with createDevice := fun _ sm => (AK_INVALID_DEVICE_ID, sm) }

/-- Environment whose OS read reports success but transfers only 3 bytes. -/
def envShortRead : IoEnv :=
  { env0 with osRead := fun _ _ _ => ⟨true, 3, [9, 9, 9]⟩ }

/-! ### Claim theorems -/

/-- C3: for every Package Key `k` in the representable key range (below
`2^31`), encoding sets the reserved flag bit (bit 31 of
`FILE_HANDLE_PACKAGE_BIT`) over `k`'s low bits, decoding classifies the
handle as a package handle and masks the flag off, and the round trip
recovers `k`: `decode(encode(k)) = (true, k)`. -/
theorem handle_encode_decode_roundtrip (k : Nat) (hk : k < 2 ^ 31) :
    (encodePackageHandle k).testBit 31 = true ∧
    handleIsPackage (encodePackageHandle k) = true ∧
    decodePackageKey (encodePackageHandle k) = k := by
  refine ⟨?_, handleIsPackage_encode k, decodePackageKey_encode k hk⟩
  simp [encodePackageHandle, Nat.testBit_or, testBit_FILE_HANDLE_PACKAGE_BIT]

/-- Witness for C3 at the concrete key 5. -/
theorem handle_encode_decode_roundtrip_witness :
    5 < 2 ^ 31 ∧
    ((encodePackageHandle 5).testBit 31 = true ∧
      handleIsPackage (encodePackageHandle 5) = true ∧
      decodePackageKey (encodePackageHandle 5) = 5) :=
  ⟨by decide, handle_encode_decode_roundtrip 5 (by decide)⟩

/-- C6: Init with a scheduler mode other than `AK_SCHEDULER_BLOCKING` fails
(the spec's `UnsupportedConfiguration`, surfaced as `AK_Fail`) and performs
no device creation and no file-location-resolver registration: both the
object state and the streaming-manager state are returned unchanged. -/
theorem init_nonblocking_fails (env : IoEnv) (s : TigerIoState) (sm : SmState)
    (settings : AkDeviceSettings) (selfId : Nat)
    (h : settings.uSchedulerTypeFlags ≠ AK_SCHEDULER_BLOCKING) :
    tigerInit env s sm settings selfId = (AKRESULT.AK_Fail, s, sm) := by
  simp [tigerInit, h]

/-- Witness for C6: scheduler flags 2 (deferred-lined-up, not blocking). -/
theorem init_nonblocking_fails_witness :
    (⟨2⟩ : AkDeviceSettings).uSchedulerTypeFlags ≠ AK_SCHEDULER_BLOCKING ∧
    tigerInit env0 ⟨0, [], 0⟩ ⟨none⟩ ⟨2⟩ 0 = (AKRESULT.AK_Fail, ⟨0, [], 0⟩, ⟨none⟩) :=
  ⟨by decide, init_nonblocking_fails env0 ⟨0, [], 0⟩ ⟨none⟩ ⟨2⟩ 0 (by decide)⟩

/-- C10: with the blocking scheduler mode, Init returns `AK_Success` for
every environment — both branches after `CreateDevice` return success — so
in particular a device creation that fails and reports
`AK_INVALID_DEVICE_ID` is never surfaced to the caller. -/
theorem init_blocking_always_success (env : IoEnv) (s : TigerIoState)
    (sm : SmState) (settings : AkDeviceSettings) (selfId : Nat)
    (h : settings.uSchedulerTypeFlags = AK_SCHEDULER_BLOCKING) :
    (tigerInit env s sm settings selfId).1 = AKRESULT.AK_Success := by
  simp [tigerInit, h]

/-- Witness for C10: device creation fails (`AK_INVALID_DEVICE_ID`), Init
still reports success. -/
theorem init_blocking_always_success_witness :
    (⟨AK_SCHEDULER_BLOCKING⟩ : AkDeviceSettings).uSchedulerTypeFlags =
        AK_SCHEDULER_BLOCKING ∧
    (envBadDevice.createDevice ⟨AK_SCHEDULER_BLOCKING⟩ ⟨none⟩).1 =
        AK_INVALID_DEVICE_ID ∧
    (tigerInit envBadDevice ⟨0, [], 0⟩ ⟨none⟩ ⟨AK_SCHEDULER_BLOCKING⟩ 0).1 =
        AKRESULT.AK_Success :=
  ⟨rfl, rfl,
    init_blocking_always_success envBadDevice ⟨0, [], 0⟩ ⟨none⟩
      ⟨AK_SCHEDULER_BLOCKING⟩ 0 rfl⟩

/-- C2 counterexample: at counter `2^31` (reachable after `2^31` opens) a
numeric-ID Open succeeds and stores the fetched bytes at key `2^31`, but the
returned handle decodes back to the masked key 0, so the subsequent Read at
position 0 with the reported size returns `(AK_Fail, none)` instead of the
fetched bytes — the claim as stated is false for keys outside the
representable 31-bit range. -/
theorem openById_read_unrepresentable_cex :
    (tigerOpenById env0 ⟨0, [], 2 ^ 31⟩ 16).1 = AKRESULT.AK_Success ∧
    (tigerOpenById env0 ⟨0, [], 2 ^ 31⟩ 16).2.2 =
      some ⟨4, 0, 0, encodePackageHandle (2 ^ 31), 0⟩ ∧
    tigerRead env0 (tigerOpenById env0 ⟨0, [], 2 ^ 31⟩ 16).2.1
        ⟨4, 0, 0, encodePackageHandle (2 ^ 31), 0⟩ ⟨0, 4⟩ =
      (AKRESULT.AK_Fail, none) := by
  decide

/-- C2 (amended): when the delivery source reports size `S` (not the
`SIZE_MAX` sentinel), the fetch of the `S` bytes succeeds, and the assigned
Package Key is in the representable key range (`< 2^31`, so the handle's
31-bit decode recovers it), the numeric-ID Open succeeds, the returned
descriptor reports size `S`, and a Read against that descriptor at position
0 with size `S` copies exactly the fetched bytes, byte-for-byte.  (`S` fits
the 32-bit `uRequestedSize` field of the Read request.) -/
theorem openById_read_full (env : IoEnv) (s : TigerIoState) (id S : Nat)
    (bs : List Nat)
    (hS : env.ddumbe_get_wwise_file_size_by_id id = S)
    (hSmax : S ≠ SIZE_MAX)
    (hfetch : env.ddumbe_read_wwise_file_by_id id S = some bs)
    (hlen : bs.length = S)
    (hkey : s.m_nextPackageFileID < 2 ^ 31)
    (hS32 : S < 2 ^ 32) :
    (tigerOpenById env s id).1 = AKRESULT.AK_Success ∧
    ∃ desc : AkFileDesc,
      (tigerOpenById env s id).2.2 = some desc ∧
      desc.iFileSize = S ∧
      tigerRead env (tigerOpenById env s id).2.1 desc ⟨0, S⟩ =
        (AKRESULT.AK_Success, some bs) := by
  have hopen : tigerOpenById env s id =
      (AKRESULT.AK_Success,
        { s with
          m_nextPackageFileID := (s.m_nextPackageFileID + 1) % 2 ^ 64
          m_packageFiles := storeInsert s.m_nextPackageFileID bs s.m_packageFiles },
        some { iFileSize := S, uSector := 0, deviceID := s.m_deviceID,
               hFile := encodePackageHandle s.m_nextPackageFileID,
               uCustomParamSize := 0 }) := by
    simp [tigerOpenById, hS, hSmax, hfetch]
  have hmod : S % 2 ^ 64 = S := Nat.mod_eq_of_lt (lt_trans hS32 (by norm_num))
  refine ⟨by rw [hopen],
    ⟨{ iFileSize := S, uSector := 0, deviceID := s.m_deviceID,
       hFile := encodePackageHandle s.m_nextPackageFileID, uCustomParamSize := 0 },
      by rw [hopen], rfl, ?_⟩⟩
  rw [hopen]
  simp only [tigerRead, handleIsPackage_encode, if_true,
    decodePackageKey_encode s.m_nextPackageFileID hkey,
    storeLookup_storeInsert_self, Nat.zero_add, hmod, hlen, gt_iff_lt,
    lt_irrefl, if_false, List.drop_zero]
  rw [List.take_of_length_le (le_of_eq hlen)]

/-- Witness for C2: asset id 16, size 4, bytes `[1, 2, 3, 4]`. -/
theorem openById_read_full_witness :
    (tigerOpenById env0 ⟨0, [], 0⟩ 16).1 = AKRESULT.AK_Success ∧
    ∃ desc : AkFileDesc,
      (tigerOpenById env0 ⟨0, [], 0⟩ 16).2.2 = some desc ∧
      desc.iFileSize = 4 ∧
      tigerRead env0 (tigerOpenById env0 ⟨0, [], 0⟩ 16).2.1 desc ⟨0, 4⟩ =
        (AKRESULT.AK_Success, some [1, 2, 3, 4]) :=
  openById_read_full env0 ⟨0, [], 0⟩ 16 4 [1, 2, 3, 4] rfl (by decide) rfl rfl
    (by decide) (by decide)

/-- C5 counterexample: a descriptor created by an Open at counter `2^31`
carries the handle of key `2^31`, but Close erases only the masked low-31-bit
key (0), so after a successful Close the descriptor's actual Package Store
entry at key `2^31` survives — the claim's "removes its entry from the
Package Store" is false for keys outside the representable 31-bit range. -/
theorem close_unrepresentable_key_cex :
    (tigerOpenById env0 ⟨0, [], 2 ^ 31⟩ 16).2.2 =
      some ⟨4, 0, 0, encodePackageHandle (2 ^ 31), 0⟩ ∧
    (tigerClose env0 (tigerOpenById env0 ⟨0, [], 2 ^ 31⟩ 16).2.1
        ⟨4, 0, 0, encodePackageHandle (2 ^ 31), 0⟩).1 = AKRESULT.AK_Success ∧
    storeLookup (2 ^ 31)
        (tigerClose env0 (tigerOpenById env0 ⟨0, [], 2 ^ 31⟩ 16).2.1
          ⟨4, 0, 0, encodePackageHandle (2 ^ 31), 0⟩).2.m_packageFiles =
      some [1, 2, 3, 4] := by
  decide

/-- C5 (amended): Close on a Package-flagged descriptor whose key is in the
representable key range (`< 2^31`) succeeds and removes the key's entry from
the Package Store; every subsequent Read through the same, now stale, handle
— i.e. a Read in any state whose store no longer holds the key — fails
(`AK_Fail`, the surfaced NotFound transfer failure) and copies nothing.
(For keys at or above `2^31`, Close still succeeds but erases only the
masked low-31-bit key, leaking the descriptor's actual entry.) -/
theorem close_removes_then_read_fails (env : IoEnv) (s : TigerIoState)
    (desc : AkFileDesc) (k : Nat) (hk : k < 2 ^ 31)
    (hdesc : desc.hFile = encodePackageHandle k) :
    (tigerClose env s desc).1 = AKRESULT.AK_Success ∧
    storeLookup k (tigerClose env s desc).2.m_packageFiles = none ∧
    (∀ (s' : TigerIoState) (ti : AkIOTransferInfo),
      storeLookup k s'.m_packageFiles = none →
      tigerRead env s' desc ti = (AKRESULT.AK_Fail, none)) := by
  refine ⟨?_, ?_, ?_⟩
  · simp [tigerClose, hdesc, handleIsPackage_encode]
  · simp [tigerClose, hdesc, handleIsPackage_encode,
      decodePackageKey_encode k hk, storeLookup_storeErase_self]
  · intro s' ti habsent
    simp [tigerRead, hdesc, handleIsPackage_encode,
      decodePackageKey_encode k hk, habsent]

/-- Witness for C5 at key 0 with a one-entry store. -/
theorem close_removes_then_read_fails_witness :
    (tigerClose env0 ⟨0, [(0, [1])], 5⟩ ⟨1, 0, 0, encodePackageHandle 0, 0⟩).1 =
        AKRESULT.AK_Success ∧
    storeLookup 0
        (tigerClose env0 ⟨0, [(0, [1])], 5⟩
          ⟨1, 0, 0, encodePackageHandle 0, 0⟩).2.m_packageFiles = none ∧
    (∀ (s' : TigerIoState) (ti : AkIOTransferInfo),
      storeLookup 0 s'.m_packageFiles = none →
      tigerRead env0 s' ⟨1, 0, 0, encodePackageHandle 0, 0⟩ ti =
        (AKRESULT.AK_Fail, none)) :=
  close_removes_then_read_fails env0 ⟨0, [(0, [1])], 5⟩
    ⟨1, 0, 0, encodePackageHandle 0, 0⟩ 0 (by decide) rfl

/-- C8 counterexample: a concrete successful numeric-ID Open populates the
descriptor's sector field with 0, not with the sector size 1 the claim
states. -/
theorem openById_sector_cex :
    (tigerOpenById env0 ⟨0, [], 0⟩ 16).1 = AKRESULT.AK_Success ∧
    ((tigerOpenById env0 ⟨0, [], 0⟩ 16).2.2.map AkFileDesc.uSector) = some 0 ∧
    ((tigerOpenById env0 ⟨0, [], 0⟩ 16).2.2.map AkFileDesc.uSector) ≠ some 1 := by
  decide

/-- C8 (amended): every successful numeric-ID Open populates the returned
descriptor with a Package-flagged handle, the measured size, sector field 0
(the per-descriptor block size reported by `GetBlockSize` is 1), and the
current Device Identity. -/
theorem openById_descriptor_fields (env : IoEnv) (s : TigerIoState) (id : Nat)
    (desc : AkFileDesc)
    (h : (tigerOpenById env s id).2.2 = some desc) :
    (tigerOpenById env s id).1 = AKRESULT.AK_Success ∧
    handleIsPackage desc.hFile = true ∧
    desc.iFileSize = env.ddumbe_get_wwise_file_size_by_id id ∧
    desc.uSector = 0 ∧
    desc.deviceID = s.m_deviceID ∧
    tigerGetBlockSize desc = 1 := by
  by_cases hS : env.ddumbe_get_wwise_file_size_by_id id = SIZE_MAX
  · simp [tigerOpenById, hS] at h
  · cases hfetch : env.ddumbe_read_wwise_file_by_id id
        (env.ddumbe_get_wwise_file_size_by_id id) with
    | none => simp [tigerOpenById, hS, hfetch] at h
    | some bs =>
      have hdesc : desc =
          { iFileSize := env.ddumbe_get_wwise_file_size_by_id id
            uSector := 0
            deviceID := s.m_deviceID
            hFile := encodePackageHandle s.m_nextPackageFileID
            uCustomParamSize := 0 } := by
        have := h
        simp [tigerOpenById, hS, hfetch] at this
        exact this.symm
      subst hdesc
      refine ⟨?_, handleIsPackage_encode _, rfl, rfl, rfl, rfl⟩
      simp [tigerOpenById, hS, hfetch]

/-- Witness for C8's amended theorem at a concrete successful open. -/
theorem openById_descriptor_fields_witness :
    (tigerOpenById env0 ⟨3, [], 0⟩ 16).2.2 =
        some ⟨4, 0, 3, encodePackageHandle 0, 0⟩ ∧
    ((tigerOpenById env0 ⟨3, [], 0⟩ 16).1 = AKRESULT.AK_Success ∧
      handleIsPackage (⟨4, 0, 3, encodePackageHandle 0, 0⟩ : AkFileDesc).hFile = true ∧
      (⟨4, 0, 3, encodePackageHandle 0, 0⟩ : AkFileDesc).iFileSize =
        env0.ddumbe_get_wwise_file_size_by_id 16 ∧
      (⟨4, 0, 3, encodePackageHandle 0, 0⟩ : AkFileDesc).uSector = 0 ∧
      (⟨4, 0, 3, encodePackageHandle 0, 0⟩ : AkFileDesc).deviceID =
        (⟨3, [], 0⟩ : TigerIoState).m_deviceID ∧
      tigerGetBlockSize ⟨4, 0, 3, encodePackageHandle 0, 0⟩ = 1) :=
  ⟨rfl, openById_descriptor_fields env0 ⟨3, [], 0⟩ 16
    ⟨4, 0, 3, encodePackageHandle 0, 0⟩ rfl⟩

/-- C9 counterexample: with an OS write oracle that reports success, a Write
against a Package-flagged descriptor returns `AK_Success` — it is not
rejected with an Unsupported failure — while the Package Store entry is left
as it was. -/
theorem write_package_flagged_cex :
    handleIsPackage (encodePackageHandle 0) = true ∧
    (tigerWrite env0 ⟨0, [(0, [5])], 1⟩ ⟨1, 0, 0, encodePackageHandle 0, 0⟩
        ⟨0, 1⟩).1 = AKRESULT.AK_Success ∧
    (tigerWrite env0 ⟨0, [(0, [5])], 1⟩ ⟨1, 0, 0, encodePackageHandle 0, 0⟩
        ⟨0, 1⟩).2 = ⟨0, [(0, [5])], 1⟩ := by
  decide

/-- C9 (amended): Write has no package path at all: for any Write whose
descriptor handle is Package-flagged, the object state — hence every Package
Store buffer — is left unchanged, and the call simply issues the OS
positioned write against the raw encoded handle value, succeeding exactly
when the OS reports success; no `Unsupported` rejection is produced. -/
theorem write_ignores_package_flag (env : IoEnv) (s : TigerIoState)
    (desc : AkFileDesc) (ti : AkIOTransferInfo)
    (_h : handleIsPackage desc.hFile = true) :
    (tigerWrite env s desc ti).2 = s ∧
    ((tigerWrite env s desc ti).1 = AKRESULT.AK_Success ↔
      (env.osWrite desc.hFile ti.uFilePosition ti.uRequestedSize).ok = true) := by
  refine ⟨rfl, ?_⟩
  simp only [tigerWrite]
  cases (env.osWrite desc.hFile ti.uFilePosition ti.uRequestedSize).ok <;> simp

/-- Witness for C9's amended theorem at a concrete package-flagged write. -/
theorem write_ignores_package_flag_witness :
    handleIsPackage (⟨1, 0, 0, encodePackageHandle 3, 0⟩ : AkFileDesc).hFile = true ∧
    ((tigerWrite env0 ⟨0, [(3, [7])], 4⟩ ⟨1, 0, 0, encodePackageHandle 3, 0⟩
        ⟨0, 1⟩).2 = ⟨0, [(3, [7])], 4⟩ ∧
      ((tigerWrite env0 ⟨0, [(3, [7])], 4⟩ ⟨1, 0, 0, encodePackageHandle 3, 0⟩
          ⟨0, 1⟩).1 = AKRESULT.AK_Success ↔
        (env0.osWrite (⟨1, 0, 0, encodePackageHandle 3, 0⟩ : AkFileDesc).hFile 0 1).ok =
          true)) :=
  ⟨handleIsPackage_encode 3,
    write_ignores_package_flag env0 ⟨0, [(3, [7])], 4⟩
      ⟨1, 0, 0, encodePackageHandle 3, 0⟩ ⟨0, 1⟩ (handleIsPackage_encode 3)⟩

/-- C1 (the code evaluated at the failing input): with a 5-byte buffer stored
at key 0, a Read at position `2^64 − 1` with size 2 has `position + size`
mathematically exceeding the buffer length, so the claim requires a failure
with nothing copied; but the code's 64-bit sum wraps to 1, the bounds check
`1 > 5` is false, the `memcpy` is executed (its C++ source range is out of
bounds — undefined behaviour) and Read returns `AK_Success`. -/
theorem read_bounds_overflow_bug :
    (⟨2 ^ 64 - 1, 2⟩ : AkIOTransferInfo).uFilePosition +
        (⟨2 ^ 64 - 1, 2⟩ : AkIOTransferInfo).uRequestedSize > 5 ∧
    (tigerRead env0 ⟨0, [(0, [1, 2, 3, 4, 5])], 1⟩
        ⟨5, 0, 0, encodePackageHandle 0, 0⟩ ⟨2 ^ 64 - 1, 2⟩).1 =
      AKRESULT.AK_Success ∧
    ((tigerRead env0 ⟨0, [(0, [1, 2, 3, 4, 5])], 1⟩
        ⟨5, 0, 0, encodePackageHandle 0, 0⟩ ⟨2 ^ 64 - 1, 2⟩).2).isSome = true := by
  refine ⟨by norm_num, ?_, ?_⟩ <;> rfl

/-- C4 counterexample: with the 64-bit counter at `2^64 − 1` (where the
post-increment wraps to 0), two successful sequential numeric-ID opens
assign keys `2^64 − 1` and then 0 — the key assigned by the second open
(the counter value it reads) is not greater than the key assigned by the
first. -/
theorem packageKey_wrap_cex :
    (tigerOpenById env0 ⟨0, [], 2 ^ 64 - 1⟩ 16).1 = AKRESULT.AK_Success ∧
    (tigerOpenById env0 (tigerOpenById env0 ⟨0, [], 2 ^ 64 - 1⟩ 16).2.1 16).1 =
      AKRESULT.AK_Success ∧
    ((tigerOpenById env0 ⟨0, [], 2 ^ 64 - 1⟩ 16).2.1).m_nextPackageFileID = 0 ∧
    ¬(((tigerOpenById env0 ⟨0, [], 2 ^ 64 - 1⟩ 16).2.1).m_nextPackageFileID >
        (⟨0, [], 2 ^ 64 - 1⟩ : TigerIoState).m_nextPackageFileID) := by
  decide

/-- C4 (amended): a successful numeric-ID Open assigns the current counter
value as the Package Key and advances the counter by one modulo `2^64`;
Close never decrements, resets or otherwise changes the counter; hence,
provided the 64-bit counter does not wrap (`m_nextPackageFileID + 1 <
2^64`), the counter value a second open would assign as its key — with or
without an intervening Close — is strictly greater than the key the first
open assigned. -/
theorem packageKey_monotone (env envc : IoEnv) (s : TigerIoState) (id1 : Nat)
    (h1 : (tigerOpenById env s id1).1 = AKRESULT.AK_Success)
    (hnw : s.m_nextPackageFileID + 1 < 2 ^ 64) :
    (∀ (s' : TigerIoState) (d : AkFileDesc),
      (tigerClose envc s' d).2.m_nextPackageFileID = s'.m_nextPackageFileID) ∧
    ((tigerOpenById env s id1).2.1).m_nextPackageFileID >
      s.m_nextPackageFileID := by
  constructor
  · intro s' d
    simp only [tigerClose]
    split <;> rfl
  · by_cases hS : env.ddumbe_get_wwise_file_size_by_id id1 = SIZE_MAX
    · simp [tigerOpenById, hS] at h1
    · cases hfetch : env.ddumbe_read_wwise_file_by_id id1
          (env.ddumbe_get_wwise_file_size_by_id id1) with
      | none => simp [tigerOpenById, hS, hfetch] at h1
      | some bs =>
        have hstep : (tigerOpenById env s id1).2.1.m_nextPackageFileID =
            (s.m_nextPackageFileID + 1) % 2 ^ 64 := by
          simp [tigerOpenById, hS, hfetch]
        rw [hstep, Nat.mod_eq_of_lt hnw]
        exact Nat.lt_succ_self _

/-- Witness for C4's amended theorem at a concrete pair of opens. -/
theorem packageKey_monotone_witness :
    (tigerOpenById env0 ⟨0, [], 10⟩ 16).1 = AKRESULT.AK_Success ∧
    (10 : Nat) + 1 < 2 ^ 64 ∧
    ((∀ (s' : TigerIoState) (d : AkFileDesc),
        (tigerClose env0 s' d).2.m_nextPackageFileID = s'.m_nextPackageFileID) ∧
      ((tigerOpenById env0 ⟨0, [], 10⟩ 16).2.1).m_nextPackageFileID > 10) :=
  ⟨rfl, by decide,
    packageKey_monotone env0 env0 ⟨0, [], 10⟩ 16 rfl (by decide)⟩

/-- C7 (the code evaluated at the failing input): a native-handle Read
requesting 5 bytes for which the OS reports success but transfers only 3
bytes returns `AK_Success` — the transferred-equals-requested condition
exists only as an `AKASSERT` (absent from release builds), so a short but
OS-successful transfer yields a partial success instead of the Native I/O
Error failure the claim requires.  (`Write` has the same structure.) -/
theorem read_short_transfer_bug :
    handleIsPackage 4 = false ∧
    (envShortRead.osRead 4 0 5).ok = true ∧
    (envShortRead.osRead 4 0 5).transferred = 3 ∧
    (3 : Nat) ≠ 5 ∧
    (tigerRead envShortRead ⟨0, [], 0⟩ ⟨100, 0, 0, 4, 0⟩ ⟨0, 5⟩).1 =
      AKRESULT.AK_Success := by
  decide

end TigerIo
